import Mathlib

set_option linter.unusedVariables false
set_option maxRecDepth 8192

/-
A shallow embedding of `src/chat.py` (class `EssayTherapyCompanion`, a Streamlit
application driving a five-question reflective dialogue and synthesizing an essay).

External service calls (`self.groq_client.chat.completions.create`) are modelled by
explicit outcome parameters: `none` stands for a raised exception (transport failure,
API error, and — for the structured call — a `json.loads` failure on the returned
payload), `some v` for a successful call whose message content is `v`.  The Streamlit
session state becomes an explicit `Session` value; one run of the script body
`interactive_exploration` is the question phase (lines 184-188) followed, when the
button is pressed, by the submission phase (lines 193-217).
-/

/-- JSON values as produced by Python's `json.loads`. -/
inductive Json where
  | null : Json
  | bool : Bool → Json
  | num : Int → Json
  | str : String → Json
  | arr : List Json → Json
  | obj : List (String × Json) → Json

/-- Python's `str.strip()`: drop leading and trailing whitespace. -/
def pyStrip (s : String) : String :=
  ⟨((s.data.dropWhile Char.isWhitespace).reverse.dropWhile Char.isWhitespace).reverse⟩

/-- Python's `x or default` on an optional string: `None` and `""` are falsy. -/
def pyOr (x : Option String) (default : String) : String :=
  match x with
  | some s => if s = "" then default else s
  | none => default

/-- Whether a character list contains an opening brace (a `str.format` replacement
field can only start at one). -/
def hasBrace : List Char → Bool
  | [] => false
  | c :: cs => (c = '\x7b') || hasBrace cs

/-- Python's `template.format(context=value)`: the template is copied verbatim with
each `\x7bcontext\x7d` replacement field substituted by `value`; a template containing
no brace at all has no replacement field and is returned unchanged. -/
def pyFormatContext (template value : String) : String :=
  if hasBrace template.data then
    String.intercalate value (template.splitOn "\x7bcontext\x7d")
  else template

/-- Serialization of a Json value in the style of `json.dumps` (the label strings
occurring in this program need no escaping). -/
def jsonDumps : Json → String
  | .null => "null"
  | .bool true => "true"
  | .bool false => "false"
  | .num n => toString n
  | .str s => "\"" ++ s ++ "\""
  | .arr xs => "[" ++ String.intercalate ", " (xs.attach.map (fun x => jsonDumps x.1)) ++ "]"
  | .obj fs => "\x7b" ++ String.intercalate ", "
      (fs.attach.map (fun f => "\"" ++ f.1.1 ++ "\": " ++ jsonDumps f.1.2)) ++ "\x7d"
decreasing_by
  · have h := List.sizeOf_lt_of_mem x.2
    simp only [Json.arr.sizeOf_spec]
    omega
  · have h := List.sizeOf_lt_of_mem f.2
    have h2 : sizeOf f.1 = 1 + sizeOf f.1.1 + sizeOf f.1.2 := by
      cases hf : f.1 with
      | mk a b => simp [hf]
    simp only [Json.obj.sizeOf_spec]
    omega

/-- Outcome of a `chat.completions.create` call read as plain text: `none` models a
raised exception, `some content` the returned message content. -/
abbrev TextOutcome := Option String

/-- Outcome of the JSON-mode call in `_analyze_response_depth`, composed with
`json.loads`: `none` models an exception from either the API call or the parse
(transport failure or non-JSON payload), `some j` a successfully parsed value `j`. -/
abbrev StructuredOutcome := Option Json

/-- The fallback question literal of `_generate_compassionate_question`
(chat.py line 73). -/
def fallback_question : String :=
  "What small moment in your life has quietly shaped who you are today?"

/-- The system-prompt template of `_generate_compassionate_question`
(chat.py lines 33-56).  Note that it contains no brace, hence no
replacement field for `.format(context=...)` to fill. -/
def question_system_prompt : String :=
  "\n        You are a compassionate career counselor and narrative guide. \n        Your goal is to ask a single, delicate question that:\n        - Feels warm and non-threatening\n        - Invites genuine, vulnerable reflection\n        - Uncovers hidden personal narratives\n        - Creates a safe emotional space for exploration\n\n        Questioning Principles:\n        1. Questions should be:\n           - Conversational in tone\n           - Open-ended but focused\n           - Emotionally intelligent\n           - Subtly provocative\n\n        2. Approach:\n           - Start with seemingly simple inquiries\n           - Allow for organic storytelling\n           - Create space for unexpected revelations\n\n\n        Design a question that feels like a caring friend \n        genuinely interested in understanding someone\x27s journey. Make the questions small that lead to deep understanding of the response.\n        "

/-- The (system, user) message contents `_generate_compassionate_question` sends to
the service (chat.py lines 59-67): the system prompt is
`system_prompt.format(context=context or "Initial gentle exploration")`, the user
prompt a fixed literal. -/
def question_request (context : Option String) : String × String :=
  (pyFormatContext question_system_prompt (pyOr context "Initial gentle exploration"),
   "Craft a question that feels like a warm, curious invitation to share.")

/-- Result of `_generate_compassionate_question` (chat.py lines 28-73): the stripped
service content on success, the fallback question on any exception.  The `context`
argument enters only the outbound request (see `question_request`); the returned text
is determined by the service outcome alone. -/
def generate_compassionate_question (outcome : TextOutcome) (context : Option String) :
    String :=
  match outcome with
  | some content => pyStrip content
  | none => fallback_question

/-- The fallback insight record of `_analyze_response_depth` (chat.py lines 124-129). -/
def analysis_fallback : Json :=
  Json.obj
    [("emotional_themes", Json.arr [Json.str "Personal Growth", Json.str "Resilience"]),
     ("unspoken_motivations", Json.arr [Json.str "Self-improvement"]),
     ("growth_indicators", Json.arr [Json.str "Reflection"]),
     ("narrative_threads", Json.arr [Json.str "Personal Journey"])]

/-- `_analyze_response_depth` (chat.py lines 75-129): returns `json.loads` of the
service content, or the fallback record when the call or the parse raises.  The
parsed value is returned as-is; the code performs no schema check on it. -/
def analyze_response_depth (outcome : StructuredOutcome) (response : String) : Json :=
  match outcome with
  | some j => j
  | none => analysis_fallback

/-- Field lookup on a JSON object; `none` on non-objects and absent keys. -/
def Json.getField : Json → String → Option Json
  | .obj fs, k => fs.lookup k
  | _, _ => none

/-- Whether an optional JSON value is present and is an array. -/
def isArrField : Option Json → Bool
  | some (Json.arr _) => true
  | _ => false

/-- The InsightRecord schema of the specification: the four required fields are all
present, each as a (possibly empty) collection. -/
def isCompleteRecord (j : Json) : Bool :=
  isArrField (j.getField "emotional_themes") &&
  isArrField (j.getField "unspoken_motivations") &&
  isArrField (j.getField "growth_indicators") &&
  isArrField (j.getField "narrative_threads")

/-- The fallback essay literal of `_generate_intimate_essay` (chat.py line 175). -/
def essay_fallback : String :=
  "A personal reflection on growth, potential, and the transformative power of continuous learning."

/-- `_generate_intimate_essay` (chat.py lines 131-175): the stripped service content
on success, the fallback essay on any exception.  The `insights` argument enters only
the outbound request (serialized with `json.dumps` into the system prompt). -/
def generate_intimate_essay (outcome : TextOutcome) (insights : List Json) : String :=
  match outcome with
  | some content => pyStrip content
  | none => essay_fallback

/-- The Streamlit session-state fields used by the program (chat.py lines 17-26;
`current_question` is first created at line 186).  `responses` is a dict keyed by
`len(responses)` at each insertion, so its entries in insertion order form a list of
(key, text) pairs. -/
structure Session where
  current_phase : String
  current_question : Option String
  responses : List (Nat × String)
  explored_depths : List Json
  essay_draft : Option String

/-- `_initialize_conversation_state` (chat.py lines 11-26) on a fresh session state. -/
def initSession : Session :=
  { current_phase := "initial_exploration"
    current_question := none
    responses := []
    explored_depths := []
    essay_draft := none }

/-- The question phase of `interactive_exploration` (chat.py lines 184-188): whenever
`current_phase == 'initial_exploration'`, a fresh question is generated with no
context and stored in `current_question`. -/
def interactive_start (s : Session) (question_outcome : TextOutcome) : Session :=
  if s.current_phase = "initial_exploration" then
    { s with
        current_question := some (generate_compassionate_question question_outcome none) }
  else s

/-- Service outcomes for the calls a single button press can make. -/
structure StepOutcomes where
  analyze : StructuredOutcome
  question : TextOutcome
  essay : TextOutcome

/-- The submission phase of `interactive_exploration` (chat.py lines 193-217): on a
truthy (non-empty) response text, store it under key `len(responses)`, append its
analysis to `explored_depths`, then either generate the next question (fewer than 5
insights) or synthesize the essay (5 or more). -/
def interactive_submit (s : Session) (user_response : String) (o : StepOutcomes) :
    Session :=
  if user_response ≠ "" then
    let current_response_key := s.responses.length
    let responses := s.responses ++ [(current_response_key, user_response)]
    let response_analysis := analyze_response_depth o.analyze user_response
    let explored_depths := s.explored_depths ++ [response_analysis]
    if explored_depths.length < 5 then
      { s with
          responses := responses
          explored_depths := explored_depths
          current_question :=
            some (generate_compassionate_question o.question (some (jsonDumps response_analysis))) }
    else
      { s with
          responses := responses
          explored_depths := explored_depths
          essay_draft := some (generate_intimate_essay o.essay explored_depths) }
  else s

/-- Session states reachable by Streamlit reruns of the script: any interleaving of
the question phase and button submissions, under arbitrary service outcomes. -/
inductive Reachable : Session → Prop
  | init : Reachable initSession
  | start (s : Session) (o : TextOutcome) : Reachable s → Reachable (interactive_start s o)
  | submit (s : Session) (t : String) (o : StepOutcomes) :
      Reachable s → Reachable (interactive_submit s t o)

/-- Outcomes in which every service call raises (so every component falls back). -/
def oFail : StepOutcomes :=
  { analyze := none, question := none, essay := none }

/-- A sequence of submissions folded over a session. -/
def runSubmits : Session → List (String × StepOutcomes) → Session
  | s, [] => s
  | s, p :: rest => runSubmits (interactive_submit s p.1 p.2) rest

/-- A concrete run: the question phase once, then `n` submissions of the text
"my reflection", every service call failing. -/
def runN : Nat → Session
  | 0 => interactive_start initSession none
  | n + 1 => interactive_submit (runN n) "my reflection" oFail

/-- Five concrete non-empty submissions with all service calls failing. -/
def fiveTexts : List (String × StepOutcomes) :=
  [("a", oFail), ("b", oFail), ("c", oFail), ("d", oFail), ("e", oFail)]

/-- The question phase never changes any field other than `current_question`. -/
theorem start_fields (s : Session) (o : TextOutcome) :
    (interactive_start s o).current_phase = s.current_phase ∧
    (interactive_start s o).responses = s.responses ∧
    (interactive_start s o).explored_depths = s.explored_depths ∧
    (interactive_start s o).essay_draft = s.essay_draft := by
  unfold interactive_start
  split <;> exact ⟨rfl, rfl, rfl, rfl⟩

/-- Whenever the phase guard of line 185 holds, the question phase stores a freshly
generated context-free question. -/
theorem start_question (s : Session) (o : TextOutcome)
    (h : s.current_phase = "initial_exploration") :
    (interactive_start s o).current_question =
      some (generate_compassionate_question o none) := by
  unfold interactive_start
  rw [if_pos h]

/-- An empty submission is the identity: `if user_response:` is false on `""`. -/
theorem submit_empty (s : Session) (o : StepOutcomes) :
    interactive_submit s "" o = s := by
  unfold interactive_submit
  simp

/-- No submission ever writes `current_phase`. -/
theorem submit_phase (s : Session) (t : String) (o : StepOutcomes) :
    (interactive_submit s t o).current_phase = s.current_phase := by
  simp only [interactive_submit]
  split
  · split <;> rfl
  · rfl

/-- A non-empty submission appends exactly one response, keyed by the current size of
the response dict, and exactly one insight record, in both branches. -/
theorem submit_appends (s : Session) (t : String) (o : StepOutcomes) (h : t ≠ "") :
    (interactive_submit s t o).responses = s.responses ++ [(s.responses.length, t)] ∧
    (interactive_submit s t o).explored_depths =
      s.explored_depths ++ [analyze_response_depth o.analyze t] := by
  simp only [interactive_submit]
  rw [if_pos h]
  split <;> exact ⟨rfl, rfl⟩

/-- A non-empty submission while fewer than four insights are stored updates the
question and leaves the essay draft alone. -/
theorem submit_below_threshold (s : Session) (t : String) (o : StepOutcomes)
    (h : t ≠ "") (h5 : s.explored_depths.length + 1 < 5) :
    (interactive_submit s t o).current_question =
      some (generate_compassionate_question o.question
        (some (jsonDumps (analyze_response_depth o.analyze t)))) ∧
    (interactive_submit s t o).essay_draft = s.essay_draft := by
  have hc : (s.explored_depths ++ [analyze_response_depth o.analyze t]).length < 5 := by
    simpa using h5
  simp only [interactive_submit]
  rw [if_pos h, if_pos hc]
  exact ⟨rfl, rfl⟩

/-- A non-empty submission once at least four insights are stored synthesizes the
essay from the extended history and leaves the question alone. -/
theorem submit_at_threshold (s : Session) (t : String) (o : StepOutcomes)
    (h : t ≠ "") (h4 : 4 ≤ s.explored_depths.length) :
    (interactive_submit s t o).essay_draft =
      some (generate_intimate_essay o.essay
        (s.explored_depths ++ [analyze_response_depth o.analyze t])) ∧
    (interactive_submit s t o).current_question = s.current_question := by
  have hc : ¬ (s.explored_depths ++ [analyze_response_depth o.analyze t]).length < 5 := by
    simp only [List.length_append, List.length_cons, List.length_nil]
    omega
  simp only [interactive_submit]
  rw [if_pos h, if_neg hc]
  exact ⟨rfl, rfl⟩

/-- The master invariant of reachable sessions: the phase literal written at
initialization is never overwritten, responses and insights stay in bijection, and
the essay draft is present exactly once five insights have accumulated. -/
theorem reach_invariant (s : Session) (hr : Reachable s) :
    s.current_phase = "initial_exploration" ∧
    s.responses.length = s.explored_depths.length ∧
    (s.essay_draft.isSome = true ↔ 5 ≤ s.explored_depths.length) := by
  induction hr with
  | init => exact ⟨rfl, rfl, by simp [initSession]⟩
  | start s o _ ih =>
    obtain ⟨h1, h2, h3, h4⟩ := start_fields s o
    rw [h1, h2, h3, h4]
    exact ih
  | submit s t o _ ih =>
    by_cases ht : t = ""
    · rw [ht, submit_empty]
      exact ih
    · obtain ⟨ha1, ha2⟩ := submit_appends s t o ht
      refine ⟨(submit_phase s t o).trans ih.1, ?_, ?_⟩
      · rw [ha1, ha2]
        simp [ih.2.1]
      · by_cases h5 : s.explored_depths.length + 1 < 5
        · obtain ⟨-, he⟩ := submit_below_threshold s t o ht h5
          rw [he, ha2]
          simp only [List.length_append, List.length_cons, List.length_nil]
          constructor
          · intro hs
            have := ih.2.2.mp hs
            omega
          · intro hle
            exact absurd hle (by omega)
        · obtain ⟨he, -⟩ := submit_at_threshold s t o ht (by omega)
          rw [he, ha2]
          simp only [List.length_append, List.length_cons, List.length_nil,
            Option.isSome_some]
          constructor
          · intro _
            omega
          · intro _
            trivial

/-- Folding submissions preserves reachability. -/
theorem runSubmits_reachable (l : List (String × StepOutcomes)) :
    ∀ s : Session, Reachable s → Reachable (runSubmits s l) := by
  induction l with
  | nil => exact fun s h => h
  | cons p rest ih =>
    exact fun s h => ih _ (Reachable.submit s p.1 p.2 h)

/-- Folding non-empty submissions grows the insight history by one per submission. -/
theorem runSubmits_len (l : List (String × StepOutcomes)) :
    ∀ s : Session, (∀ p ∈ l, p.1 ≠ "") →
      (runSubmits s l).explored_depths.length = s.explored_depths.length + l.length := by
  induction l with
  | nil =>
    intro s _
    simp [runSubmits]
  | cons p rest ih =>
    intro s hne
    have h1 : p.1 ≠ "" := hne p (by simp)
    have h2 := (submit_appends s p.1 p.2 h1).2
    show (runSubmits (interactive_submit s p.1 p.2) rest).explored_depths.length = _
    rw [ih _ (fun q hq => hne q (by simp [hq])), h2]
    simp
    omega

/-- Claim C1, counterexample: run the question phase and five successful submissions
(all service calls failing, so every component falls back).  The phase is not
"complete" (it is never written), and a sixth non-empty submission is not a no-op: a
sixth response and a sixth insight are stored. -/
theorem C1_counterexample :
    (runN 5).current_phase ≠ "complete" ∧
    (runN 5).responses.length = 5 ∧
    (interactive_submit (runN 5) "one more thought" oFail).responses.length = 6 ∧
    (interactive_submit (runN 5) "one more thought" oFail).explored_depths.length = 6 := by
  decide

/-- Claim C1 (amended): after exactly 5 successful submissions the essay draft is set,
but the phase is still "initial_exploration" (never "complete"), and a sixth non-empty
submission is not rejected: it stores a sixth response and insight and re-synthesizes
the essay from all six insight records. -/
theorem C1_amended (o0 : TextOutcome) (l : List (String × StepOutcomes))
    (hlen : l.length = 5) (hne : ∀ p ∈ l, p.1 ≠ "")
    (t6 : String) (o6 : StepOutcomes) (h6 : t6 ≠ "") :
    (runSubmits (interactive_start initSession o0) l).essay_draft.isSome = true ∧
    (runSubmits (interactive_start initSession o0) l).current_phase =
      "initial_exploration" ∧
    (interactive_submit (runSubmits (interactive_start initSession o0) l) t6 o6).responses.length = 6 ∧
    (interactive_submit (runSubmits (interactive_start initSession o0) l) t6 o6).essay_draft =
      some (generate_intimate_essay o6.essay
        ((runSubmits (interactive_start initSession o0) l).explored_depths ++
          [analyze_response_depth o6.analyze t6])) := by
  have hreach : Reachable (runSubmits (interactive_start initSession o0) l) :=
    runSubmits_reachable l _ (Reachable.start _ o0 Reachable.init)
  have hlen5 : (runSubmits (interactive_start initSession o0) l).explored_depths.length = 5 := by
    rw [runSubmits_len l _ hne, (start_fields initSession o0).2.2.1]
    simp [initSession, hlen]
  have hinv := reach_invariant _ hreach
  refine ⟨hinv.2.2.mpr (by omega), hinv.1, ?_, ?_⟩
  · rw [(submit_appends _ t6 o6 h6).1]
    simp only [List.length_append, List.length_cons, List.length_nil]
    have h := hinv.2.1
    omega
  · exact (submit_at_threshold _ t6 o6 h6 (by omega)).1

/-- Claim C1, witness: the amended statement at a concrete five-submission run. -/
theorem C1_witness :
    (runSubmits (interactive_start initSession none) fiveTexts).essay_draft.isSome = true ∧
    (runSubmits (interactive_start initSession none) fiveTexts).current_phase =
      "initial_exploration" ∧
    (interactive_submit (runSubmits (interactive_start initSession none) fiveTexts) "f" oFail).responses.length = 6 ∧
    (interactive_submit (runSubmits (interactive_start initSession none) fiveTexts) "f" oFail).essay_draft =
      some (generate_intimate_essay oFail.essay
        ((runSubmits (interactive_start initSession none) fiveTexts).explored_depths ++
          [analyze_response_depth oFail.analyze "f"])) :=
  C1_amended none fiveTexts rfl (by decide) "f" oFail (by decide)

/-- Claim C2, counterexample: the question phase on a fresh session does not set the
phase to "exploring", and it is not idempotent when a question is already present —
because the phase guard of line 185 always holds, a second run regenerates (and here
changes) the stored question. -/
theorem C2_counterexample :
    (interactive_start initSession (some "Q")).current_phase ≠ "exploring" ∧
    (interactive_start (interactive_start initSession (some "Q")) (some "R")).current_question ≠
      (interactive_start initSession (some "Q")).current_question := by
  decide

/-- Claim C2 (amended): the question phase on a fresh session stores the generated
question (the stripped service text, or the non-empty fallback on failure) in
`current_question` and leaves the phase at "initial_exploration"; since the phase
guard always holds, every later run regenerates the question rather than keeping it. -/
theorem C2_amended (o o2 : TextOutcome) :
    (interactive_start initSession o).current_question =
      some (generate_compassionate_question o none) ∧
    (interactive_start initSession o).current_phase = "initial_exploration" ∧
    generate_compassionate_question none none ≠ "" ∧
    (interactive_start (interactive_start initSession o) o2).current_question =
      some (generate_compassionate_question o2 none) := by
  refine ⟨start_question initSession o rfl, (start_fields initSession o).1, by decide, ?_⟩
  exact start_question (interactive_start initSession o) o2
    ((start_fields initSession o).1.trans rfl)

/-- Claim C3, counterexample: a reachable state (five successful submissions) whose
essay draft is set while the phase is not "complete". -/
theorem C3_counterexample :
    Reachable (runN 5) ∧ (runN 5).essay_draft.isSome = true ∧
    (runN 5).current_phase ≠ "complete" := by
  refine ⟨?_, by decide, by decide⟩
  exact Reachable.submit _ _ _ (Reachable.submit _ _ _ (Reachable.submit _ _ _
    (Reachable.submit _ _ _ (Reachable.submit _ _ _ (Reachable.start _ _ Reachable.init)))))

/-- Claim C3 (amended): at every reachable state the essay draft is set if and only if
at least five insight records have accumulated; the phase never leaves
"initial_exploration", so it never equals "complete". -/
theorem C3_amended (s : Session) (hr : Reachable s) :
    (s.essay_draft.isSome = true ↔ 5 ≤ s.explored_depths.length) ∧
    s.current_phase = "initial_exploration" ∧
    s.current_phase ≠ "complete" := by
  have h := reach_invariant s hr
  refine ⟨h.2.2, h.1, ?_⟩
  rw [h.1]
  decide

/-- Claim C3, witness: the amended statement at the initial session. -/
theorem C3_witness :
    (initSession.essay_draft.isSome = true ↔ 5 ≤ initSession.explored_depths.length) ∧
    initSession.current_phase = "initial_exploration" ∧
    initSession.current_phase ≠ "complete" :=
  C3_amended initSession Reachable.init

/-- Claim C4: the system-prompt template of `_generate_compassionate_question`
contains no replacement field, so `.format(context=...)` drops the context and the
request sent to the service is identical whether or not an insight context is
supplied — contradicting the intended (and specified) behaviour that the serialized
context be included. -/
theorem C4_requests_identical (ctx : String) :
    question_request (some ctx) = question_request none := by
  have hnb : hasBrace question_system_prompt.data = false := by decide
  simp [question_request, pyFormatContext, hnb]

/-- Claim C5, counterexample: a whitespace-only submission is truthy in Python, so it
is accepted: it stores a response and appends an insight record. -/
theorem C5_counterexample :
    ¬ ((interactive_submit (runN 0) "   " oFail).responses = (runN 0).responses ∧
       (interactive_submit (runN 0) "   " oFail).explored_depths.length =
         (runN 0).explored_depths.length) := by
  decide

/-- Claim C5 (amended): submitting the empty string is a no-op, but a whitespace-only
string such as "   " is accepted (the code tests only `if user_response:`): it appends
one response and one insight record, leaving the phase unchanged. -/
theorem C5_amended (s : Session) (o : StepOutcomes) :
    interactive_submit s "" o = s ∧
    (interactive_submit s "   " o).responses.length = s.responses.length + 1 ∧
    (interactive_submit s "   " o).explored_depths.length = s.explored_depths.length + 1 ∧
    (interactive_submit s "   " o).current_phase = s.current_phase := by
  refine ⟨submit_empty s o, ?_, ?_, submit_phase s "   " o⟩
  · rw [(submit_appends s "   " o (by decide)).1]
    simp
  · rw [(submit_appends s "   " o (by decide)).2]
    simp

/-- Claim C6, counterexample: when the service returns a JSON object missing the four
required fields, the analyzer returns it as-is — a partially-filled record. -/
theorem C6_counterexample :
    isCompleteRecord (analyze_response_depth
      (some (Json.obj [("mood", Json.str "calm")])) "I feel calm today") = false := by
  decide

/-- Claim C6 (amended): the fallback record is schema-complete, but on a successful
JSON parse the analyzer returns the parsed value unvalidated, so a returned record
need not contain the four required fields. -/
theorem C6_amended (r : String) (j : Json) :
    isCompleteRecord (analyze_response_depth none r) = true ∧
    analyze_response_depth (some j) r = j :=
  ⟨rfl, rfl⟩

/-- Claim C7, counterexample: a parsed JSON object missing three of the four required
fields is not replaced by the fixed fallback record — it is returned unchanged. -/
theorem C7_counterexample :
    isCompleteRecord (Json.obj [("emotional_themes", Json.arr [Json.str "Hope"])]) = false ∧
    analyze_response_depth
      (some (Json.obj [("emotional_themes", Json.arr [Json.str "Hope"])])) "my story" ≠
      analysis_fallback := by
  refine ⟨by decide, ?_⟩
  intro hcontra
  simp only [analyze_response_depth, analysis_fallback] at hcontra
  injection hcontra with h
  simp at h

/-- Claim C7 (amended): transport failure and a non-JSON payload (both of which raise
inside the try block) yield the fixed literal fallback record; JSON that parses but
lacks one or more of the four required fields is returned as-is, not replaced. -/
theorem C7_amended (r : String) :
    analyze_response_depth none r = analysis_fallback ∧
    analyze_response_depth (some (Json.obj [("mood", Json.str "calm")])) r =
      Json.obj [("mood", Json.str "calm")] :=
  ⟨rfl, rfl⟩

/-- Claim C8: at every reachable session state — hence after every submission — the
number of stored responses equals the number of stored insight records. -/
theorem C8_responses_insights (s : Session) (hr : Reachable s) :
    s.responses.length = s.explored_depths.length :=
  (reach_invariant s hr).2.1

/-- Claim C8, witness: the invariant at a concrete two-submission run. -/
theorem C8_witness : (runN 2).responses.length = (runN 2).explored_depths.length :=
  C8_responses_insights (runN 2)
    (Reachable.submit _ _ _ (Reachable.submit _ _ _ (Reachable.start _ _ Reachable.init)))

/-- Claim C9, counterexample: a session that completes with the essay service call
succeeding but returning only whitespace ends with `essay_draft = some ""` — an empty
essay, since the code strips the content without checking non-emptiness. -/
theorem C9_counterexample :
    (interactive_submit (runN 4) "my reflection"
      { analyze := none, question := none, essay := some "   " }).essay_draft =
      some "" := by
  decide

/-- Claim C9 (amended): the synthesizer never propagates an error — on any service
failure it returns the fixed non-empty fallback paragraph — but on success it returns
the stripped service text, which is empty when the service returns only whitespace. -/
theorem C9_amended (t : String) (insights : List Json) :
    generate_intimate_essay none insights = essay_fallback ∧
    essay_fallback ≠ "" ∧
    generate_intimate_essay (some t) insights = pyStrip t :=
  ⟨rfl, by decide, rfl⟩

/-- Claim C10: a non-empty submission that brings the insight count to the threshold
of five leaves `current_question` unchanged, extends `responses` and
`explored_depths` purely by appending (all previously stored entries intact), and
sets the essay; a new question is generated only on the branch where the insight
count is still below five, and there the essay draft is untouched. -/
theorem C10_frame (s : Session) (t : String) (o : StepOutcomes) (ht : t ≠ "") :
    (s.explored_depths.length = 4 →
      (interactive_submit s t o).current_question = s.current_question ∧
      (interactive_submit s t o).responses = s.responses ++ [(s.responses.length, t)] ∧
      (interactive_submit s t o).explored_depths =
        s.explored_depths ++ [analyze_response_depth o.analyze t] ∧
      (interactive_submit s t o).essay_draft =
        some (generate_intimate_essay o.essay
          (s.explored_depths ++ [analyze_response_depth o.analyze t]))) ∧
    (s.explored_depths.length + 1 < 5 →
      (interactive_submit s t o).current_question =
        some (generate_compassionate_question o.question
          (some (jsonDumps (analyze_response_depth o.analyze t)))) ∧
      (interactive_submit s t o).essay_draft = s.essay_draft) := by
  constructor
  · intro h4
    obtain ⟨ha1, ha2⟩ := submit_appends s t o ht
    obtain ⟨he, hq⟩ := submit_at_threshold s t o ht (by omega)
    exact ⟨hq, ha1, ha2, he⟩
  · intro h5
    exact submit_below_threshold s t o ht h5

/-- Claim C10, witness: the frame condition at a concrete run holding four insights. -/
theorem C10_witness :
    (interactive_submit (runN 4) "my fifth reflection" oFail).current_question =
      (runN 4).current_question ∧
    (interactive_submit (runN 4) "my fifth reflection" oFail).responses =
      (runN 4).responses ++ [((runN 4).responses.length, "my fifth reflection")] ∧
    (interactive_submit (runN 4) "my fifth reflection" oFail).explored_depths =
      (runN 4).explored_depths ++ [analyze_response_depth oFail.analyze "my fifth reflection"] ∧
    (interactive_submit (runN 4) "my fifth reflection" oFail).essay_draft =
      some (generate_intimate_essay oFail.essay
        ((runN 4).explored_depths ++ [analyze_response_depth oFail.analyze "my fifth reflection"])) :=
  (C10_frame (runN 4) "my fifth reflection" oFail (by decide)).1 (by decide)
